import Mathlib

namespace Filmtherapy

/-- Characters Python `str.strip` removes (ASCII whitespace suffices for the strings
in this code base). -/
def isStripChar (c : Char) : Bool := c.isWhitespace

/-- Model of Python `str.strip`: drop whitespace from both ends. -/
def pyStrip (s : String) : String :=
  ⟨((s.data.dropWhile isStripChar).reverse.dropWhile isStripChar).reverse⟩

/-- Model of Python `str.lower` on the alphabets this code base uses:
ASCII letters and the Russian Cyrillic block (А..Я and Ё). -/
def pyLowerChar (c : Char) : Char :=
  if 'A' ≤ c ∧ c ≤ 'Z' then Char.ofNat (c.toNat + 32)
  else if 'А' ≤ c ∧ c ≤ 'Я' then Char.ofNat (c.toNat + 32)
  else if c = 'Ё' then 'ё'
  else c

def pyLower (s : String) : String := ⟨s.data.map pyLowerChar⟩

/-- Test `listStartsWith needle hay`: the needle is an initial segment of the hay. -/
def listStartsWith : List Char → List Char → Bool
  | [], _ => true
  | _ :: _, [] => false
  | a :: as, b :: bs => a = b && listStartsWith as bs

def listHasInside (needle : List Char) : List Char → Bool
  | [] => needle.isEmpty
  | c :: rest => listStartsWith needle (c :: rest) || listHasInside needle rest

/-- Model of Python `k in s` (substring containment). -/
def pyContains (s k : String) : Bool := listHasInside k.data s.data

/-- Iterated `pyContains s` over a list of keys: models Python `any(k in s for k in keys)`. -/
def anyKeyIn (s : String) (keys : List String) : Bool := keys.any (pyContains s)

/-- Model of `CalendarService.normalize_session_type` (src/services/calendar_service.py):
normalize a free-text session-type label to one of
`any | online | offline | sand | rest`.  `Option.none` models Python `None`. -/
def normalize_session_type (val : Option String) : String :=
  let s := pyLower (pyStrip (val.getD ""))
  if s = "" then "offline"
  else if anyKeyIn s ["any", "both", "оба", "любой", "все"] then "any"
  else if anyKeyIn s ["online", "онлайн"] then "online"
  else if anyKeyIn s ["rest", "осталь"] then "rest"
  else if anyKeyIn s ["sand", "песоч"] then "sand"
  else if anyKeyIn s ["offline", "офлайн", "оффлайн", "очно"] then "offline"
  else "offline"

/-- Model of `CalendarService.normalize_location_rule`: normalize a schedule rule's
location to `any`, `online`, or the trimmed exact location string. -/
def normalize_location_rule (val : Option String) : String :=
  let raw := pyStrip (val.getD "")
  let s := pyLower raw
  if s = "" then "any"
  else if anyKeyIn s ["any", "both", "оба", "любой", "все"] then "any"
  else if anyKeyIn s ["online", "онлайн"] then "online"
  else raw

/-- All-digit parse of a nonempty character list. -/
def digitsToNat : List Char → Option Nat
  | [] => Option.none
  | l => if l.all Char.isDigit then
      some (l.foldl (fun acc c => acc * 10 + (c.toNat - 48)) 0)
    else Option.none

/-- Model of Python `int(s)` on a string: optional sign, decimal digits,
surrounding whitespace allowed; `Option.none` models the raised `ValueError`. -/
def pyToInt (s : String) : Option Int :=
  match (pyStrip s).data with
  | '-' :: rest => (digitsToNat rest).map (fun n => -(n : Int))
  | '+' :: rest => (digitsToNat rest).map (fun n => (n : Int))
  | l => (digitsToNat l).map (fun n => (n : Int))

/-- Split a character list at every occurrence of `c` (no separator kept);
the result is never empty, matching Python `str.split(sep)`. -/
def splitChar (c : Char) : List Char → List (List Char)
  | [] => [[]]
  | x :: xs =>
    if x = c then [] :: splitChar c xs
    else
      match splitChar c xs with
      | [] => [[x]]
      | h :: t => (x :: h) :: t

/-- Model of Python `s.split(":")`. -/
def pySplitColon (s : String) : List String := (splitChar ':' s.data).map String.mk

/-- Model of `CalendarService.parse_hhmm`: parse `"HH:MM"` into `(hour, minute)`,
`Option.none` on failure or out-of-range values.  A missing minute part
defaults to `0`; extra `:`-separated parts are ignored, as in the source. -/
def parse_hhmm (val : String) : Option (Int × Int) :=
  match pySplitColon val with
  | [] => Option.none
  | p0 :: rest =>
    match pyToInt p0 with
    | Option.none => Option.none
    | some h =>
      let mres : Option Int :=
        match rest with
        | [] => some 0
        | p1 :: _ => pyToInt p1
      match mres with
      | Option.none => Option.none
      | some m =>
        if 0 ≤ h ∧ h ≤ 23 ∧ 0 ≤ m ∧ m ≤ 59 then some (h, m) else Option.none

/-! Timestamps and durations are modelled as minutes (`Int`).  All datetimes in
the service are normalized to timezone-aware UTC before comparison, so the
total order on minute values is exactly the order the source compares with. -/

/-- Model of `CalendarService.overlaps`: half-open interval overlap test
`max(a_start, b_start) < min(a_end, b_end)`. -/
def overlaps (a_start a_end b_start b_end : Int) : Bool :=
  decide (max a_start b_start < min a_end b_end)

/-- A Python value that can sit in a rule's `duration`/`interval` field:
an integer, a string, or `None`-or-absent (both produce the same result in
`int(rule.get(k, d) or d)`, so they share the constructor `pynone`). -/
inductive PyNum where
  | int (i : Int)
  | str (s : String)
  | pynone
deriving DecidableEq, Repr

/-- Result of Python `int(v or d)` for a rule's `duration` field with default
`d = 50`: falsy values (`0`, `""`, `None`) fall back to the default, strings are
parsed by `int`, and `Option.none` models the exception `int` raises. -/
def durFromField : PyNum → Option Int
  | PyNum.int i => if i = 0 then some 50 else some i
  | PyNum.str s => if s = "" then some 50 else pyToInt s
  | PyNum.pynone => some 50

/-- Result of Python `int(rule.get("interval", duration_min) or duration_min)`:
like `durFromField` with the already-computed duration as the default. -/
def intervalFromField (dur : Int) : PyNum → Option Int
  | PyNum.int i => if i = 0 then some dur else some i
  | PyNum.str s => if s = "" then some dur else pyToInt s
  | PyNum.pynone => some dur

/-- The `duration_min`/`interval_min` computation of `CalendarService._match_rule`:
a single `try` block; if either conversion raises, both values fall back to 50. -/
def durInterval (rdur rint : PyNum) : Int × Int :=
  match durFromField rdur with
  | Option.none => (50, 50)
  | some d =>
    match intervalFromField d rint with
    | Option.none => (50, 50)
    | some i => (d, i)

/-- A calendar date as `_match_rule` consumes it: the `%d-%m-%y` components for
the string comparison, and the minute timestamp of that day's UTC midnight
(calendar-to-timestamp conversion is abstracted into this field; no claim
relates timestamps of two distinct dates). -/
structure PyDate where
  day : Nat
  month : Nat
  year2 : Nat
  midnight : Int
deriving DecidableEq, Repr

/-- Two-digit zero padding as in `strftime`. -/
def pad2 (n : Nat) : String := if n < 10 then "0" ++ toString n else toString n

/-- Model of `date.strftime("%d-%m-%y")`. -/
def dmyStr (d : PyDate) : String := pad2 d.day ++ "-" ++ pad2 d.month ++ "-" ++ pad2 d.year2

/-- A schedule rule dict as `_match_rule` reads it: string fields already
converted through `str(rule.get(k) or "")` / `str(rule.get(k, ""))`
(missing keys behave as `""`), numeric fields kept as raw Python values.
The field `stop` models the Python key `end` (a Lean keyword). -/
structure Rule where
  date : String
  start : String
  stop : String
  duration : PyNum
  interval : PyNum
  location : String
  session_type : String
deriving DecidableEq, Repr

/-- The date gate of `_match_rule`: reject when the rule's stripped `date` is
empty or differs from the target date rendered as `%d-%m-%y`. -/
def dateRejects (date : PyDate) (rule : Rule) : Bool :=
  let rule_date := pyStrip rule.date
  decide (rule_date = "") || decide (rule_date ≠ dmyStr date)

/-- The location gate of `_match_rule` (after normalizing the rule's location):
an `online` rule applies only to online sessions; a concrete location rule
rejects an offline session whose selected location is nonempty and different. -/
def locRejects (r_loc_norm sel_loc norm_in : String) : Bool :=
  let is_online_session := norm_in = "online"
  if r_loc_norm = "online" then decide (¬ is_online_session)
  else if r_loc_norm ≠ "any" then
    decide (¬ is_online_session ∧ sel_loc ≠ "" ∧ sel_loc ≠ r_loc_norm)
  else false

/-- The session-type gate of `_match_rule`, applied to the stripped rule
`session_type`: empty means no constraint, `rest` is a blackout, `sand` is
folded into `offline`, concrete types must be compatible with the caller's. -/
def sessionRejects (r_sess norm_in : String) : Bool :=
  if r_sess = "" then false
  else
    let norm_rule_raw := normalize_session_type (some r_sess)
    if norm_rule_raw = "rest" then true
    else
      let norm_rule := if norm_rule_raw = "sand" ∨ norm_rule_raw = "offline" then "offline" else norm_rule_raw
      if norm_rule = "" ∨ norm_rule = "any" then false
      else if norm_rule = "online" ∧ norm_in ≠ "online" then true
      else if norm_rule = "offline" ∧ norm_in = "online" then true
      else if norm_rule ≠ "online" ∧ norm_rule ≠ "offline" ∧ norm_rule ≠ norm_in then true
      else false

/-- The time-window and slot-parameter tail of `_match_rule`: parse the
`start`/`end` fields as HH:MM, default both to the full day `00:00`–`23:59`
only when both fail, reject when exactly one fails or when the resulting
window is empty or inverted. -/
def matchWindow (date : PyDate) (rule : Rule) : Option (Int × Int × Int × Int) :=
  let p_start0 := parse_hhmm (pyStrip rule.start)
  let p_end0 := parse_hhmm (pyStrip rule.stop)
  let pr : Option (Int × Int) × Option (Int × Int) :=
    if p_start0 = Option.none ∧ p_end0 = Option.none then (some (0, 0), some (23, 59))
    else (p_start0, p_end0)
  match pr.1, pr.2 with
  | some ps, some pe =>
    let di := durInterval rule.duration rule.interval
    let window_start := date.midnight + 60 * ps.1 + ps.2
    let window_end := date.midnight + 60 * pe.1 + pe.2
    if window_start ≥ window_end then Option.none
    else some (window_start, window_end, di.1, di.2)
  | _, _ => Option.none

/-- Model of `CalendarService._match_rule`: the early-return chain of the source as a
sequence of gates, returning the matched window, slot parameters and the
normalized rule location. -/
def match_rule (date : PyDate) (rule : Rule) (sel_loc norm_in : String) :
    Option (Int × Int × Int × Int × String) :=
  if dateRejects date rule then Option.none
  else
    let r_loc_norm := normalize_location_rule (some (pyStrip rule.location))
    if locRejects r_loc_norm sel_loc norm_in then Option.none
    else if sessionRejects (pyStrip rule.session_type) norm_in then Option.none
    else
      match matchWindow date rule with
      | Option.none => Option.none
      | some (ws, we, dm, im) => some (ws, we, dm, im, r_loc_norm)

/-- The yield condition of `iter_free_slots`:
`slot_end > now_utc and all(not overlaps(...) for b0, b1 in busy_intervals)`. -/
def slotKeep (slot_start slot_end now_utc : Int) (busy : List (Int × Int)) : Bool :=
  decide (now_utc < slot_end) && busy.all (fun b => ! overlaps slot_start slot_end b.1 b.2)

/-- The `while cur + dur <= window_end` loop of `CalendarService.iter_free_slots`,
unrolled with explicit fuel: each iteration checks the loop guard, yields the
candidate when `slotKeep` holds, and advances `cur` by the step.  The Python
generator's behaviour is the limit of this family over increasing fuel; when
the loop terminates the output is independent of any sufficiently large fuel. -/
def iterFreeSlotsFuel (window_end dur step now_utc : Int) (busy : List (Int × Int)) :
    Nat → Int → List (Int × Int)
  | 0, _ => []
  | fuel + 1, cur =>
    if cur + dur ≤ window_end then
      (if slotKeep cur (cur + dur) now_utc busy then [(cur, cur + dur)] else [])
        ++ iterFreeSlotsFuel window_end dur step now_utc busy fuel (cur + step)
    else []

/-- Whether the while-loop of `iter_free_slots` reaches its exit branch within
`fuel` iterations (same guard and step as `iterFreeSlotsFuel`). -/
def iterLoopExits (window_end dur step : Int) : Nat → Int → Bool
  | 0, _ => false
  | fuel + 1, cur =>
    if cur + dur ≤ window_end then iterLoopExits window_end dur step fuel (cur + step)
    else true

/-- Fuel that upper-bounds the iteration count of the `iter_free_slots` loop
whenever the step is positive (iteration `k` runs only if
`window_start + k*step + dur ≤ window_end`, and `k ≤ k*step` for `step ≥ 1`). -/
def iterFuel (window_start window_end dur : Int) : Nat :=
  (window_end - dur - window_start).toNat + 1

/-- Model of `CalendarService.iter_free_slots` for inputs on which the loop terminates
(any positive step): the fueled loop run with enough fuel, starting at
`window_start`.  Durations are `timedelta(minutes=...)`, i.e. plain minutes. -/
def iter_free_slots (window_start window_end duration_min interval_min : Int)
    (busy : List (Int × Int)) (now_utc : Int) : List (Int × Int) :=
  iterFreeSlotsFuel window_end duration_min interval_min now_utc busy
    (iterFuel window_start window_end duration_min) window_start

/-- The ephemeral `Slot` dataclass; `stop` models the field `end`, timestamps
are minute values and `id` uses an injective rendering of the start minute in
place of `datetime.isoformat` (no claim inspects the rendered text). -/
structure Slot where
  id : String
  start : Int
  stop : Int
  location : Option String
  session_type : String
deriving DecidableEq, Repr

def isoMin (m : Int) : String := toString m

/-- An element of the `rules` list inside the schedule config: either a dict
(skipped otherwise, `if not isinstance(r, dict): continue`). -/
inductive RuleItem where
  | dict (r : Rule)
  | other
deriving DecidableEq, Repr

/-- The value returned by the schedule repository's `get_sync()` as
`list_available_slots` sees it: a dict (whose `rules` key holds a list —
a missing key behaves as the empty list), a Python list (what the production
`ScheduleRepository.get_sync` actually returns), or anything else. -/
inductive Cfg where
  | dictCfg (rules : List RuleItem)
  | listCfg (rs : List Rule)
  | otherCfg
deriving DecidableEq, Repr

/-- The slot-location choice in `list_available_slots`: `None` for online
sessions, the rule's concrete location when it has one, otherwise the caller's
selected location (`sel_loc or None`). -/
def slotLocation (is_online_session : Bool) (r_loc_norm sel_loc : String) : Option String :=
  if is_online_session then Option.none
  else if r_loc_norm ≠ "any" ∧ r_loc_norm ≠ "online" then some r_loc_norm
  else if sel_loc = "" then Option.none else some sel_loc

/-- Model of `CalendarService.list_available_slots`.  The ambient state the source
reads inside the body — the schedule config from `get_sync()`, the busy
intervals computed from the bookings store, and `datetime.now` — are explicit
parameters.  Rules whose container is not a dict contribute nothing, slot
lists of all matching rules are concatenated in rule order and finally sorted
ascending by `start` (`slots.sort(key=lambda s: s.start)`, a stable sort by a
total key, which insertion sort implements). -/
def list_available_slots (cfg : Cfg) (date : PyDate) (location : Option String)
    (session_type : String) (busy : List (Int × Int)) (now_utc : Int) : List Slot :=
  let rules := match cfg with
    | Cfg.dictCfg rs => rs
    | _ => []
  let norm_in := normalize_session_type (some session_type)
  let is_online_session := norm_in = "online"
  let sel_loc := pyStrip (location.getD "")
  let slots := rules.foldr
    (fun ri acc =>
      match ri with
      | RuleItem.other => acc
      | RuleItem.dict r =>
        match match_rule date r sel_loc norm_in with
        | Option.none => acc
        | some (ws, we, dm, im, r_loc_norm) =>
          ((iter_free_slots ws we dm im busy now_utc).map (fun p =>
            let loc := slotLocation is_online_session r_loc_norm sel_loc
            { id := isoMin p.1 ++ "|" ++ loc.getD "online" ++ "|" ++ session_type,
              start := p.1, stop := p.2, location := loc,
              session_type := session_type })) ++ acc)
    []
  slots.insertionSort (fun a b => a.start ≤ b.start)

/-- Model of `ScheduleRepository.get_sync` (src/services/repositories.py): streams the
schedule collection, validates each document into a `ScheduleRule` model and
returns them as a Python **list** sorted by `(date, start)`.  Document-level
validation is abstracted: the parameter is the list of already-validated rules.
Only the shape of the result (a list, never a dict) matters to the claims. -/
def ScheduleRepository.get_sync (validated : List Rule) : Cfg :=
  Cfg.listCfg (validated.insertionSort
    (fun a b => a.date < b.date ∨ (a.date = b.date ∧ a.start ≤ b.start)))

/-- A stored booking document.  `start`/`stop` (the Python `end`) are minute
timestamps: the store persists them as fixed-format UTC ISO strings with a
`Z` suffix, whose lexicographic order coincides with the time order used by
the Firestore range queries, so the embedding compares the times directly. -/
structure Booking where
  id : String
  user_id : String
  name : String
  phone : Option String
  slot_id : String
  start : Int
  stop : Int
  location : Option String
  session_type : String
  status : String
  price : Int
  created_at : Int
deriving DecidableEq, Repr

/-- The exception classes the service raises (`src/exceptions.py` plus the
Python builtins `KeyError` and `PermissionError`).  `NotFoundError` is a
`BotException` subclass and is **not** a `KeyError`. -/
inductive SvcErr where
  | validationError (msg : String)
  | notFoundError (msg : String)
  | keyError (msg : String)
  | permissionError (msg : String)
deriving DecidableEq, Repr

def SvcErr.isKeyError : SvcErr → Bool
  | SvcErr.keyError _ => true
  | _ => false

/-- Whether a lifecycle call raised a Python `KeyError`. -/
def raisedKeyError {α : Type} : Except SvcErr α → Bool
  | Except.error e => e.isKeyError
  | Except.ok _ => false

/-- Model of `BookingRepository.get_by_id_sync`: the document with the given id. -/
def get_by_id_sync (store : List Booking) (id : String) : Option Booking :=
  store.find? (fun b => b.id == id)

/-- Model of `BookingRepository.get_range_sync`: bookings with `start` in
`[start, stop)`, ordered by `start`, capped by the dynamic limit
`min(max(days_diff * 10, 50), 500)` where `days_diff = (end - start).days`
(Python `timedelta.days` floors, hence `Int.fdiv`). -/
def get_range_sync (store : List Booking) (start stop : Int) : List Booking :=
  let days_diff := Int.fdiv (stop - start) 1440
  let limit := min (max (days_diff * 10) 50) 500
  (((store.filter (fun b => decide (start ≤ b.start ∧ b.start < stop))).insertionSort
    (fun a b => a.start ≤ b.start)).take limit.toNat)

/-- Model of `BookingRepository.set_sync`: insert-or-replace by `id`; raises
`ValidationError` when the stripped id is empty. -/
def set_sync (store : List Booking) (b : Booking) : Except SvcErr (List Booking) :=
  if pyStrip b.id = "" then Except.error (SvcErr.validationError "Booking must have 'id'")
  else if store.any (fun x => x.id == b.id) then
    Except.ok (store.map (fun x => if x.id == b.id then b else x))
  else Except.ok (store ++ [b])

/-- Model of `BookingRepository.patch_sync` specialised to the one field the service
patches (`{"status": ...}`): raises `NotFoundError` when the id is absent,
otherwise stores and returns the updated document. -/
def patch_sync (store : List Booking) (id : String) (newStatus : String) :
    Except SvcErr (Booking × List Booking) :=
  match store.find? (fun b => b.id == id) with
  | Option.none => Except.error (SvcErr.notFoundError ("Booking '" ++ id ++ "' not found"))
  | some cur =>
    let upd := { cur with status := newStatus }
    Except.ok (upd, store.map (fun x => if x.id == id then upd else x))

/-- Model of `BookingRepository.delete_sync`: remove the document with the given id,
reporting whether it existed. -/
def delete_sync (store : List Booking) (id : String) : Bool × List Booking :=
  if store.any (fun b => b.id == id) then
    (true, store.filter (fun b => ! (b.id == id)))
  else (false, store)

/-- Model of `CalendarService.create_reservation`.  The wall clock
(`int(datetime.utcnow().timestamp())`, also used for `created_at`) is the
explicit parameter `nowTs`.  The conflict scan iterates exactly over
`get_range_sync(slot.start, slot.end)` and raises `ValidationError` at the
first true overlap; otherwise the new `pending_payment` booking is persisted
through `set_sync` and returned.  (The per-record string parsing guards of the
source cannot fire on the typed store and are omitted.) -/
def create_reservation (store : List Booking) (nowTs : Int) (user_id : Int) (slot : Slot)
    (name : String) (phone : Option String) (price : Int) :
    Except SvcErr (Booking × List Booking) :=
  let s_start := slot.start
  let s_end := slot.stop
  let potentially_conflicting := get_range_sync store s_start s_end
  if potentially_conflicting.any (fun b => overlaps s_start s_end b.start b.stop) then
    Except.error (SvcErr.validationError "Slot already booked")
  else
    let booking_id := "b-" ++ toString nowTs ++ "-" ++ toString user_id
    let booking : Booking :=
      { id := booking_id, user_id := toString user_id, name := name, phone := phone,
        slot_id := slot.id, start := s_start, stop := s_end, location := slot.location,
        session_type := slot.session_type, status := "pending_payment", price := price,
        created_at := nowTs }
    match set_sync store booking with
    | Except.error e => Except.error e
    | Except.ok st => Except.ok (booking, st)

/-- Model of `CalendarService.confirm_payment`: delegate to `patch_sync` with
`{"status": "confirmed"}`.  The service's own `if not updated: raise KeyError`
is unreachable: `patch_sync` either raises `NotFoundError` or returns a
non-empty dict. -/
def confirm_payment (store : List Booking) (booking_id : String) :
    Except SvcErr (Booking × List Booking) :=
  match patch_sync store booking_id "confirmed" with
  | Except.error e => Except.error e
  | Except.ok (updated, st) => Except.ok (updated, st)

/-- The receipt `cancel_booking` returns. -/
structure CancelReceipt where
  id : String
  status : String
  canceled_at : Int
deriving DecidableEq, Repr

/-- Model of `CalendarService.cancel_booking`, state-passing: the returned store is
unchanged when an exception is raised.  Missing id raises `KeyError`; a start
strictly less than 24 hours (1440 minutes) away raises `PermissionError`;
otherwise the record is deleted and a `canceled` receipt returned.  (The
`KeyError` branch for a missing/non-string `start` field cannot fire on the
typed store.) -/
def cancel_booking (store : List Booking) (now : Int) (booking_id : String) :
    Except SvcErr CancelReceipt × List Booking :=
  match get_by_id_sync store booking_id with
  | Option.none => (Except.error (SvcErr.keyError "booking not found"), store)
  | some b =>
    if b.start - now < 1440 then
      (Except.error (SvcErr.permissionError "Cannot cancel less than 24 hours"), store)
    else
      let st := (delete_sync store booking_id).2
      (Except.ok { id := booking_id, status := "canceled", canceled_at := now }, st)

/-- A typed `ScheduleRule` as `ScheduleRepository.save_sync` consumes it
(`_normalize_rules` output; invalid payload items are already dropped there).
`stop` models the field `end`; `deleted` is the explicit tombstone flag of the
model.  The model validator guarantees `id` is set (non-empty) on construction,
but the composite fallback of `_doc_id_from_rule` is kept. -/
structure SchedRule where
  id : String
  date : String
  start : String
  stop : String
  duration : Int
  interval : Int
  location : String
  session_type : String
  deleted : Bool
deriving DecidableEq, Repr

/-- Model of `ScheduleRepository._doc_id_from_rule`: `str(rule.id or composite)`. -/
def doc_id_from_rule (r : SchedRule) : String :=
  if r.id ≠ "" then r.id
  else r.date ++ "|" ++ r.start ++ "|" ++ r.location ++ "|" ++ r.session_type

/-- Insert-or-replace into an association list keyed by the first component:
Python dict assignment `unique[key] = value` (first-occurrence position,
last value wins). -/
def upsertAssoc {α : Type} (l : List (String × α)) (k : String) (v : α) :
    List (String × α) :=
  if l.any (fun p => p.1 == k) then
    l.map (fun p => if p.1 == k then (k, v) else p)
  else l ++ [(k, v)]

/-- The `unique` dict of `save_sync`: deduplicate the incoming rules by their
document id, in insertion order, last item winning. -/
def dedupById (rules : List SchedRule) : List (String × SchedRule) :=
  rules.foldl (fun acc r => upsertAssoc acc (doc_id_from_rule r) r) []

/-- Model of `ScheduleRepository.save_sync` on a store of `(doc id, stored rule)` pairs:
compute the deduplicated incoming set, **delete every existing document whose
id is not among the incoming ids**, then upsert each incoming rule
(`set(..., merge=False)` replaces the document; the stored payload is the rule
minus its `id` field, represented here by the rule itself).  The `deleted`
flag of the incoming rules is never consulted. -/
def save_sync (store : List (String × SchedRule)) (rules_in : List SchedRule) :
    List (String × SchedRule) :=
  let unique := dedupById rules_in
  let new_ids := unique.map Prod.fst
  let afterDelete := store.filter (fun p => new_ids.contains p.1)
  unique.foldl (fun st kv => upsertAssoc st kv.1 kv.2) afterDelete

/-- The sort key of `list_available_slots` is total. -/
instance : IsTotal Slot (fun a b => a.start ≤ b.start) :=
  ⟨fun a b => le_total a.start b.start⟩

/-- The sort key of `list_available_slots` is transitive. -/
instance : IsTrans Slot (fun a b => a.start ≤ b.start) :=
  ⟨fun _ _ _ => le_trans⟩

instance exceptDecEq {ε α : Type} [DecidableEq ε] [DecidableEq α] :
    DecidableEq (Except ε α) := fun x y =>
  match x, y with
  | Except.ok a, Except.ok b =>
    if h : a = b then isTrue (by rw [h]) else isFalse (by intro he; cases he; exact h rfl)
  | Except.error a, Except.error b =>
    if h : a = b then isTrue (by rw [h]) else isFalse (by intro he; cases he; exact h rfl)
  | Except.ok _, Except.error _ => isFalse (by intro h; cases h)
  | Except.error _, Except.ok _ => isFalse (by intro h; cases h)

/-- The booking status a reservation call returns, `Option.none` when it raised. -/
def reservationStatus : Except SvcErr (Booking × List Booking) → Option String
  | Except.ok (b, _) => some b.status
  | Except.error _ => Option.none

/-- An existing booking 09:30–10:30 (minutes 570–630): it overlaps the slot
10:00–11:00 but its start lies strictly before the slot's start. -/
def c1Busy : Booking :=
  { id := "busy", user_id := "1", name := "", phone := Option.none, slot_id := "s",
    start := 570, stop := 630, location := Option.none, session_type := "Очно",
    status := "confirmed", price := 100, created_at := 0 }

/-- The candidate slot 10:00–11:00 (minutes 600–660). -/
def c1Slot : Slot :=
  { id := "600|online|Очно", start := 600, stop := 660, location := Option.none,
    session_type := "Очно" }

/-- First rule of the repository's own save test (`02-01-30`, 10:00–12:00). -/
def c3r1 : SchedRule :=
  { id := "02-01-30|10:00||", date := "02-01-30", start := "10:00", stop := "12:00",
    duration := 50, interval := 50, location := "", session_type := "", deleted := false }

/-- Second rule of the repository's own save test (`02-01-30`, 13:00–15:00). -/
def c3r2 : SchedRule :=
  { id := "02-01-30|13:00||", date := "02-01-30", start := "13:00", stop := "15:00",
    duration := 50, interval := 50, location := "", session_type := "", deleted := false }

/-- A rule passing the date/location/session gates whose `start` is unparsable
while its `end` parses as 11:00. -/
def c8rule : Rule :=
  { date := "01-01-50", start := "oops", stop := "11:00", duration := PyNum.int 60,
    interval := PyNum.int 60, location := "", session_type := "" }

/-- A rule passing the date/location/session gates with both time fields
unparsable. -/
def c8bothRule : Rule :=
  { date := "01-01-50", start := "later", stop := "early", duration := PyNum.int 60,
    interval := PyNum.int 60, location := "", session_type := "" }

/-- A rule whose `interval` field is the string `"0"`: `int("0" or d) = 0`
survives the falsy-default, so rule matching hands `interval_min = 0` to the
slot iterator. -/
def c10rule : Rule :=
  { date := "01-01-50", start := "10:00", stop := "11:40", duration := PyNum.int 60,
    interval := PyNum.str "0", location := "", session_type := "" }

/-- A pending booking used to exercise `confirm_payment` on an existing id. -/
def c5b : Booking :=
  { id := "b-1000-7", user_id := "7", name := "N", phone := Option.none, slot_id := "s",
    start := 540, stop := 600, location := Option.none, session_type := "Онлайн",
    status := "pending_payment", price := 100, created_at := 1000 }

/-- A booking starting three days (4320 minutes) after minute 0, used to
exercise the cancellation rules. -/
def c4b : Booking :=
  { id := "c1", user_id := "1", name := "", phone := Option.none, slot_id := "s",
    start := 4320, stop := 4370, location := Option.none, session_type := "Онлайн",
    status := "confirmed", price := 100, created_at := 0 }

/-! ### Theorems -/

/-- C7 (counterexample): the overlap test on the degenerate pair of identical
intervals `[0,0)` and `[0,0)` returns `false`, so "overlaps returns true
whenever `(a0,a1)` equals `(b0,b1)`" fails when read over all intervals. -/
theorem c7_counterexample : overlaps 0 0 0 0 = false := by decide

/-- C7 (amended): `overlaps` is false whenever the intervals merely touch
(`a1 = b0`) — for **all** inputs, degenerate intervals included — and true
whenever the intervals are identical, provided they are nonempty
(`a0 < a1`; a degenerate identical pair does not overlap, see the
counterexample). -/
theorem c7_overlaps_touch_identical (a0 a1 b0 b1 : Int) :
    (a1 = b0 → overlaps a0 a1 b0 b1 = false) ∧
    (a0 < a1 → (a0, a1) = (b0, b1) → overlaps a0 a1 b0 b1 = true) := by
  constructor
  · intro h
    subst h
    simp only [overlaps, decide_eq_false_iff_not, not_lt]
    omega
  · intro h1 h
    have ha : a0 = b0 := congrArg Prod.fst h
    have hb : a1 = b1 := congrArg Prod.snd h
    subst ha
    subst hb
    simp only [overlaps, decide_eq_true_eq, max_self, min_self]
    omega

/-- C7 (witness): the amended theorem applied to the touching pair
`[0,1), [1,2)`, the degenerate touching triple `a0 = a1 = b0 = 0` with
`b1 = 0`, and the identical nonempty pair `[0,1), [0,1)`. -/
theorem c7_witness :
    overlaps 0 1 1 2 = false ∧ overlaps 0 0 0 0 = false ∧ overlaps 0 1 0 1 = true :=
  ⟨(c7_overlaps_touch_identical 0 1 1 2).1 rfl,
   (c7_overlaps_touch_identical 0 0 0 0).1 rfl,
   (c7_overlaps_touch_identical 0 1 0 1).2 (by decide) rfl⟩

/-- C3 (code bug): replaying the repository's own test
`test_save_deletes_only_when_explicit` — after saving `{r1, r2}`, saving only
`[r2]` leaves the store containing **only** `r2`: `save_sync` deleted `r1`
although `r1` was merely omitted and carried no `deleted=True` flag. -/
theorem c3_save_is_full_replace :
    (save_sync (save_sync [] [c3r1, c3r2]) [c3r2]).map Prod.fst = ["02-01-30|13:00||"] ∧
    (save_sync [] [c3r1, c3r2]).map Prod.fst = ["02-01-30|10:00||", "02-01-30|13:00||"] ∧
    c3r1.deleted = false := by decide

/-- C10 (code bug): rule matching accepts the rule with `interval = "0"`
(string) and hands `interval_min = 0` to `iter_free_slots`; with that step the
while-loop guard `cur + dur ≤ window_end` holds forever (the loop never reaches
its exit branch at any fuel) and the generator yields a slot on every
iteration, so the yielded sequence is infinite rather than finite. -/
theorem c10_iter_free_slots_diverges :
    match_rule ⟨1, 1, 50, 0⟩ c10rule "" "offline" = some (600, 700, 60, 0, "any") ∧
    (∀ fuel : Nat, iterLoopExits 700 60 0 fuel 600 = false) ∧
    (∀ fuel : Nat, (iterFreeSlotsFuel 700 60 0 0 [] fuel 600).length = fuel) := by
  refine ⟨by decide, ?_, ?_⟩
  · intro fuel
    induction fuel with
    | zero => rfl
    | succ n ih =>
      have : (600 : Int) + 60 ≤ 700 := by decide
      simp only [iterLoopExits, if_pos this]
      have h0 : (600 : Int) + 0 = 600 := by decide
      rw [h0]
      exact ih
  · intro fuel
    induction fuel with
    | zero => rfl
    | succ n ih =>
      have hg : (600 : Int) + 60 ≤ 700 := by decide
      have hk : slotKeep 600 (600 + 60) 0 [] = true := by decide
      have h0 : (600 : Int) + 0 = 600 := by decide
      simp only [iterFreeSlotsFuel, if_pos hg, hk, if_true, h0, List.singleton_append,
        List.length_cons, ih]

/-- C8 (counterexample): a rule that passes the date, location and
session-type gates and whose `end` parses as 11:00 while its `start` is
unparsable is rejected by `_match_rule` — the full-day default applies only
when **both** fields are unparsable, not "when either is". -/
theorem c8_counterexample :
    parse_hhmm (pyStrip c8rule.start) = Option.none ∧
    parse_hhmm (pyStrip c8rule.stop) = some (11, 0) ∧
    dateRejects ⟨1, 1, 50, 0⟩ c8rule = false ∧
    locRejects (normalize_location_rule (some (pyStrip c8rule.location))) "" "offline" = false ∧
    sessionRejects (pyStrip c8rule.session_type) "offline" = false ∧
    match_rule ⟨1, 1, 50, 0⟩ c8rule "" "offline" = Option.none := by decide

/-- C8 (amended): for a rule that passes the date, location and session-type
gates, the window defaults to the full day 00:00–23:59 only when **both**
`start` and `end` are unparsable (and such a window is never inverted, so the
rule matches); when exactly one of the two is unparsable the rule is rejected;
when both parse, the rule is rejected exactly when the window is empty or
inverted. -/
theorem c8_window_default (date : PyDate) (rule : Rule) (sel_loc norm_in : String)
    (hdate : dateRejects date rule = false)
    (hloc : locRejects (normalize_location_rule (some (pyStrip rule.location))) sel_loc norm_in
      = false)
    (hsess : sessionRejects (pyStrip rule.session_type) norm_in = false) :
    (parse_hhmm (pyStrip rule.start) = Option.none →
      parse_hhmm (pyStrip rule.stop) = Option.none →
      match_rule date rule sel_loc norm_in =
        some (date.midnight, date.midnight + 1439,
          (durInterval rule.duration rule.interval).1,
          (durInterval rule.duration rule.interval).2,
          normalize_location_rule (some (pyStrip rule.location)))) ∧
    (parse_hhmm (pyStrip rule.start) = Option.none →
      parse_hhmm (pyStrip rule.stop) ≠ Option.none →
      match_rule date rule sel_loc norm_in = Option.none) ∧
    (parse_hhmm (pyStrip rule.start) ≠ Option.none →
      parse_hhmm (pyStrip rule.stop) = Option.none →
      match_rule date rule sel_loc norm_in = Option.none) ∧
    (∀ ps pe, parse_hhmm (pyStrip rule.start) = some ps →
      parse_hhmm (pyStrip rule.stop) = some pe →
      match_rule date rule sel_loc norm_in =
        if date.midnight + 60 * ps.1 + ps.2 ≥ date.midnight + 60 * pe.1 + pe.2 then Option.none
        else some (date.midnight + 60 * ps.1 + ps.2, date.midnight + 60 * pe.1 + pe.2,
          (durInterval rule.duration rule.interval).1,
          (durInterval rule.duration rule.interval).2,
          normalize_location_rule (some (pyStrip rule.location)))) := by
  refine ⟨?_, ?_, ?_, ?_⟩
  · intro h1 h2
    have hw : matchWindow date rule =
        some (date.midnight, date.midnight + 1439,
          (durInterval rule.duration rule.interval).1,
          (durInterval rule.duration rule.interval).2) := by
      simp only [matchWindow, h1, h2, and_self, if_true]
      rw [if_neg (by omega)]
      simp only [Option.some.injEq, Prod.mk.injEq]
      all_goals norm_num
      all_goals omega
    simp [match_rule, hdate, hloc, hsess, hw]
  · intro h1 h2
    have hw : matchWindow date rule = Option.none := by
      rcases hpe : parse_hhmm (pyStrip rule.stop) with _ | pe
      · exact absurd hpe h2
      · simp [matchWindow, h1, hpe]
    simp [match_rule, hdate, hloc, hsess, hw]
  · intro h1 h2
    have hw : matchWindow date rule = Option.none := by
      rcases hps : parse_hhmm (pyStrip rule.start) with _ | ps
      · exact absurd hps h1
      · simp [matchWindow, hps, h2]
    simp [match_rule, hdate, hloc, hsess, hw]
  · intro ps pe h1 h2
    have hw : matchWindow date rule =
        if date.midnight + 60 * ps.1 + ps.2 ≥ date.midnight + 60 * pe.1 + pe.2 then Option.none
        else some (date.midnight + 60 * ps.1 + ps.2, date.midnight + 60 * pe.1 + pe.2,
          (durInterval rule.duration rule.interval).1,
          (durInterval rule.duration rule.interval).2) := by
      simp [matchWindow, h1, h2]
    by_cases hcmp : date.midnight + 60 * ps.1 + ps.2 ≥ date.midnight + 60 * pe.1 + pe.2
    · rw [if_pos hcmp] at hw
      simp [match_rule, hdate, hloc, hsess, hw, hcmp]
    · rw [if_neg hcmp] at hw
      simp [match_rule, hdate, hloc, hsess, hw, hcmp]

/-- C8 (witness): a rule with both time fields unparsable, all other gates
passing, matches with the full-day window on 01-01-50 at midnight 0. -/
theorem c8_witness :
    match_rule ⟨1, 1, 50, 0⟩ c8bothRule "" "offline" = some (0, 1439, 60, 60, "any") :=
  ((c8_window_default ⟨1, 1, 50, 0⟩ c8bothRule "" "offline" (by decide) (by decide)
    (by decide)).1 (by decide) (by decide)).trans (by decide)

/-- C2: `list_available_slots` returns `[]` whenever the schedule config is
not a dict, and the production `ScheduleRepository.get_sync` returns a Python
list, so the composition of the two returns `[]` on every input. -/
theorem c2_production_always_empty (cfg : Cfg) (hcfg : ∀ rs, cfg ≠ Cfg.dictCfg rs)
    (validated : List Rule) (date : PyDate) (location : Option String)
    (session_type : String) (busy : List (Int × Int)) (now_utc : Int) :
    list_available_slots cfg date location session_type busy now_utc = [] ∧
    list_available_slots (ScheduleRepository.get_sync validated) date location session_type
      busy now_utc = [] := by
  constructor
  · cases cfg with
    | dictCfg rs => exact absurd rfl (hcfg rs)
    | listCfg rs => rfl
    | otherCfg => rfl
  · rfl

/-- C2 (witness): the theorem applied to the non-dict config `otherCfg` and to
a production store holding one perfectly valid rule. -/
theorem c2_witness :
    list_available_slots Cfg.otherCfg ⟨1, 1, 50, 0⟩ Option.none "Очно" [] 0 = [] ∧
    list_available_slots
      (ScheduleRepository.get_sync
        [{ date := "01-01-50", start := "10:00", stop := "12:00", duration := PyNum.int 60,
           interval := PyNum.int 60, location := "IJsbaanpad 9", session_type := "Очно" }])
      ⟨1, 1, 50, 0⟩ (some "IJsbaanpad 9") "Очно" [] 0 = [] :=
  ⟨(c2_production_always_empty Cfg.otherCfg (fun _ h => Cfg.noConfusion h) [] ⟨1, 1, 50, 0⟩
      Option.none "Очно" [] 0).1,
   (c2_production_always_empty Cfg.otherCfg (fun _ h => Cfg.noConfusion h)
      [{ date := "01-01-50", start := "10:00", stop := "12:00", duration := PyNum.int 60,
         interval := PyNum.int 60, location := "IJsbaanpad 9", session_type := "Очно" }]
      ⟨1, 1, 50, 0⟩ (some "IJsbaanpad 9") "Очно" [] 0).2⟩

/-- C5 (counterexample): on a missing id the composed `confirm_payment` raises
the repository's `NotFoundError`, which is not a Python `KeyError` (the
service's own `raise KeyError` branch is unreachable). -/
theorem c5_counterexample :
    confirm_payment [] "nope" =
      Except.error (SvcErr.notFoundError "Booking 'nope' not found") ∧
    raisedKeyError (confirm_payment ([] : List Booking) "nope") = false := by decide

/-- Helper: replacing the documents matching an id by `upd` (with `upd.id = id`)
makes the id-lookup return `upd`, provided the id was present. -/
theorem find?_map_update (store : List Booking) (id : String) (upd : Booking)
    (hupd : upd.id = id) (h : (store.find? (fun b => b.id == id)).isSome = true) :
    (store.map (fun x => if x.id == id then upd else x)).find? (fun b => b.id == id)
      = some upd := by
  induction store with
  | nil => simp at h
  | cons x xs ih =>
    by_cases hx : (x.id == id) = true
    · have hu : (upd.id == id) = true := by rw [hupd]; exact beq_self_eq_true id
      simp only [List.map_cons, if_pos hx, List.find?]
      rw [hu]
    · have hx' : (x.id == id) = false := by simpa using hx
      simp only [List.find?, hx'] at h
      have hxval : (if (x.id == id) = true then upd else x) = x := if_neg hx
      simp only [List.map_cons]
      rw [hxval]
      simp only [List.find?, hx']
      exact ih h

/-- C5 (amended): `confirm_payment` on an existing id stores and returns the
record with `status = "confirmed"`; on a missing id it raises the repository's
`NotFoundError` (not a Python `KeyError` — the service's own `KeyError` branch
is dead code). -/
theorem c5_confirm_payment (store : List Booking) (id : String) :
    (store.find? (fun b => b.id == id) = Option.none →
      confirm_payment store id =
        Except.error (SvcErr.notFoundError ("Booking '" ++ id ++ "' not found"))) ∧
    (∀ b, store.find? (fun b => b.id == id) = some b →
      confirm_payment store id =
        Except.ok ({ b with status := "confirmed" },
          store.map (fun x => if x.id == id then { b with status := "confirmed" } else x)) ∧
      get_by_id_sync
        (store.map (fun x => if x.id == id then { b with status := "confirmed" } else x)) id
        = some { b with status := "confirmed" }) := by
  constructor
  · intro h
    simp [confirm_payment, patch_sync, h]
  · intro b hb
    have hbid : b.id = id := by
      have := List.find?_some hb
      exact eq_of_beq this
    refine ⟨by simp [confirm_payment, patch_sync, hb], ?_⟩
    apply find?_map_update
    · exact hbid
    · rw [hb]; rfl

/-- C5 (witness): the amended theorem applied to a one-element store holding a
pending booking — confirmation flips its stored status to `confirmed`. -/
theorem c5_witness :
    confirm_payment [c5b] "b-1000-7" =
      Except.ok ({ c5b with status := "confirmed" },
        [c5b].map (fun x => if x.id == "b-1000-7" then { c5b with status := "confirmed" }
          else x)) ∧
    get_by_id_sync
      ([c5b].map (fun x => if x.id == "b-1000-7" then { c5b with status := "confirmed" }
        else x)) "b-1000-7" = some { c5b with status := "confirmed" } :=
  (c5_confirm_payment [c5b] "b-1000-7").2 c5b (by decide)

/-- C4: `cancel_booking` raises `KeyError` on a missing id; on a booking whose
start is strictly less than 24 hours (1440 minutes) away it raises
`PermissionError` and leaves the store unchanged (the record is still present
with the same fields); on a booking 24 hours or more away it removes the
record and returns a receipt carrying the id and `status = "canceled"`. -/
theorem c4_cancel_booking (store : List Booking) (now : Int) (id : String) :
    (get_by_id_sync store id = Option.none →
      cancel_booking store now id = (Except.error (SvcErr.keyError "booking not found"), store)) ∧
    (∀ b, get_by_id_sync store id = some b →
      (b.start - now < 1440 →
        cancel_booking store now id =
          (Except.error (SvcErr.permissionError "Cannot cancel less than 24 hours"), store) ∧
        get_by_id_sync (cancel_booking store now id).2 id = some b) ∧
      (1440 ≤ b.start - now →
        cancel_booking store now id =
          (Except.ok { id := id, status := "canceled", canceled_at := now },
            store.filter (fun x => ! (x.id == id))) ∧
        get_by_id_sync (cancel_booking store now id).2 id = Option.none)) := by
  refine ⟨?_, ?_⟩
  · intro h
    simp [cancel_booking, h]
  · intro b hb
    constructor
    · intro hlt
      have hc : cancel_booking store now id =
          (Except.error (SvcErr.permissionError "Cannot cancel less than 24 hours"), store) := by
        simp [cancel_booking, hb, if_pos hlt]
      exact ⟨hc, by rw [hc]; exact hb⟩
    · intro hge
      have hmem : store.any (fun b => b.id == id) = true := by
        rcases List.find?_eq_some.1 hb with ⟨hpb, as, bs, hsplit, _⟩
        rw [List.any_eq_true]
        exact ⟨b, by rw [hsplit]; exact List.mem_append_right as (List.mem_cons_self b bs), hpb⟩
      have hc : cancel_booking store now id =
          (Except.ok { id := id, status := "canceled", canceled_at := now },
            store.filter (fun x => ! (x.id == id))) := by
        have hnlt : ¬ (b.start - now < 1440) := by omega
        simp [cancel_booking, hb, hnlt, delete_sync, hmem]
      refine ⟨hc, ?_⟩
      rw [hc]
      simp only [get_by_id_sync]
      rw [List.find?_eq_none]
      intro x hx
      have := List.mem_filter.1 hx
      simp only [Bool.not_eq_true'] at this
      simp [this.2]

/-- C4 (witness): the theorem applied to a store holding one booking three
days out — cancellation at minute 0 succeeds and removes the record — and the
`KeyError` branch applied to the empty store. -/
theorem c4_witness :
    (cancel_booking [c4b] 0 "c1" =
      (Except.ok { id := "c1", status := "canceled", canceled_at := 0 },
        [c4b].filter (fun x => ! (x.id == "c1"))) ∧
      get_by_id_sync (cancel_booking [c4b] 0 "c1").2 "c1" = Option.none) ∧
    cancel_booking [] 0 "missing" =
      (Except.error (SvcErr.keyError "booking not found"), []) :=
  ⟨((c4_cancel_booking [c4b] 0 "c1").2 c4b (by decide)).2 (by decide),
   (c4_cancel_booking [] 0 "missing").1 (by decide)⟩

/-- Helper: a generated booking id `"b-..."` survives `str.strip` non-empty,
so `set_sync` never raises on it. -/
theorem pyStrip_bdash (r : String) : pyStrip ("b-" ++ r) ≠ "" := by
  intro h
  have hdata :
      ((("b-" ++ r).data.dropWhile isStripChar).reverse.dropWhile isStripChar).reverse = [] :=
    congrArg String.data h
  have hd : ("b-" ++ r).data = 'b' :: '-' :: r.data := rfl
  rw [hd] at hdata
  have hb : ¬ isStripChar 'b' = true := by decide
  rw [List.dropWhile_cons_of_neg hb] at hdata
  have h2 : ('b' :: '-' :: r.data).reverse.dropWhile isStripChar = [] := by
    have := congrArg List.reverse hdata
    simpa using this
  have hmem : 'b' ∈ ('b' :: '-' :: r.data).reverse := by simp
  have := List.dropWhile_eq_nil_iff.1 h2 'b' hmem
  simp [isStripChar] at this

/-- C1 (counterexample): an existing booking 09:30–10:30 genuinely overlaps
the requested slot 10:00–11:00, but its start lies before the slot's start, so
`get_range_sync(slot.start, slot.end)` misses it and `create_reservation`
persists a second, conflicting `pending_payment` booking instead of raising
`ValidationError`. -/
theorem c1_counterexample :
    overlaps c1Slot.start c1Slot.stop c1Busy.start c1Busy.stop = true ∧
    get_range_sync [c1Busy] c1Slot.start c1Slot.stop = [] ∧
    reservationStatus (create_reservation [c1Busy] 1000 42 c1Slot "A" Option.none 100)
      = some "pending_payment" := by decide

/-- C1 (amended): `create_reservation` raises `ValidationError` exactly when a
booking **returned by the start-anchored range query**
`get_range_sync(slot.start, slot.end)` overlaps the slot; an overlapping
booking whose start lies strictly before `slot.start` is not seen by that
query, and absent a detected conflict the new booking is persisted with
`status = "pending_payment"` and the slot's UTC timestamps. -/
theorem c1_create_reservation (store : List Booking) (nowTs : Int) (user_id : Int)
    (slot : Slot) (name : String) (phone : Option String) (price : Int) :
    ((∃ b ∈ get_range_sync store slot.start slot.stop,
        overlaps slot.start slot.stop b.start b.stop = true) →
      create_reservation store nowTs user_id slot name phone price =
        Except.error (SvcErr.validationError "Slot already booked")) ∧
    ((∀ b ∈ get_range_sync store slot.start slot.stop,
        overlaps slot.start slot.stop b.start b.stop = false) →
      ∃ bk st, create_reservation store nowTs user_id slot name phone price =
          Except.ok (bk, st) ∧
        bk.status = "pending_payment" ∧ bk.start = slot.start ∧ bk.stop = slot.stop ∧
        bk ∈ st) := by
  constructor
  · intro h
    have hany : (get_range_sync store slot.start slot.stop).any
        (fun b => overlaps slot.start slot.stop b.start b.stop) = true := by
      rw [List.any_eq_true]
      rcases h with ⟨b, hmem, hov⟩
      exact ⟨b, hmem, hov⟩
    simp [create_reservation, hany]
  · intro h
    have hany : (get_range_sync store slot.start slot.stop).any
        (fun b => overlaps slot.start slot.stop b.start b.stop) = false := by
      rw [List.any_eq_false]
      intro b hmem
      simp [h b hmem]
    set bk : Booking :=
      { id := "b-" ++ toString nowTs ++ "-" ++ toString user_id,
        user_id := toString user_id, name := name, phone := phone, slot_id := slot.id,
        start := slot.start, stop := slot.stop, location := slot.location,
        session_type := slot.session_type, status := "pending_payment", price := price,
        created_at := nowTs } with hbk
    have hid : pyStrip bk.id ≠ "" := pyStrip_bdash _
    by_cases hex : store.any (fun x => x.id == bk.id) = true
    · refine ⟨bk, store.map (fun x => if x.id == bk.id then bk else x), ?_, rfl, rfl, rfl, ?_⟩
      · simp [create_reservation, hany, set_sync, hid, hex]
      · rcases List.any_eq_true.1 hex with ⟨x, hxmem, hxid⟩
        rw [List.mem_map]
        exact ⟨x, hxmem, by rw [if_pos hxid]⟩
    · have hex' : store.any (fun x => x.id == bk.id) = false := by
        simpa using hex
      refine ⟨bk, store ++ [bk], ?_, rfl, rfl, rfl, ?_⟩
      · simp [create_reservation, hany, set_sync, hid, hex']
      · exact List.mem_append_right store (List.mem_singleton.2 rfl)

/-- C1 (witness): the amended theorem's no-conflict branch applied to the
empty store. -/
theorem c1_witness :
    ∃ bk st, create_reservation [] 1000 7 c1Slot "N" Option.none 100 = Except.ok (bk, st) ∧
      bk.status = "pending_payment" ∧ bk.start = c1Slot.start ∧ bk.stop = c1Slot.stop ∧
      bk ∈ st :=
  (c1_create_reservation [] 1000 7 c1Slot "N" Option.none 100).2 (by decide)

/-- Helper: the yield condition as a proposition. -/
theorem slotKeep_eq_true (s e now : Int) (busy : List (Int × Int)) :
    slotKeep s e now busy = true ↔
      now < e ∧ ∀ b ∈ busy, overlaps s e b.1 b.2 = false := by
  simp [slotKeep, List.all_eq_true, Bool.not_eq_true']

/-- Helper: membership in the fueled loop, for a positive step: exactly the
in-fuel multiples of the step whose slot fits the window and passes the yield
condition (the loop guard at earlier indices follows from monotonicity). -/
theorem mem_iterFreeSlotsFuel (we dur step now : Int) (busy : List (Int × Int))
    (hstep : 0 < step) :
    ∀ (fuel : Nat) (cur : Int) (p : Int × Int),
      p ∈ iterFreeSlotsFuel we dur step now busy fuel cur ↔
        ∃ k : Nat, k < fuel ∧ cur + k * step + dur ≤ we ∧
          slotKeep (cur + k * step) (cur + k * step + dur) now busy = true ∧
          p = (cur + k * step, cur + k * step + dur) := by
  intro fuel
  induction fuel with
  | zero =>
    intro cur p
    simp [iterFreeSlotsFuel]
  | succ n ih =>
    intro cur p
    by_cases hg : cur + dur ≤ we
    · rw [iterFreeSlotsFuel, if_pos hg, List.mem_append]
      constructor
      · rintro (hhead | htail)
        · by_cases hk : slotKeep cur (cur + dur) now busy = true
          · rw [if_pos hk, List.mem_singleton] at hhead
            refine ⟨0, Nat.succ_pos n, ?_, ?_, ?_⟩ <;>
              simp only [Nat.cast_zero, zero_mul, add_zero]
            · exact hg
            · exact hk
            · exact hhead
          · rw [if_neg hk] at hhead
            cases hhead
        · rcases (ih (cur + step) p).1 htail with ⟨k, hkn, hle, hkeep, hp⟩
          have e : cur + ((k + 1 : Nat) : Int) * step = cur + step + (k : Int) * step := by
            push_cast
            ring
          refine ⟨k + 1, Nat.succ_lt_succ hkn, ?_, ?_, ?_⟩
          · rw [e]
            exact hle
          · rw [e]
            exact hkeep
          · rw [e]
            exact hp
      · rintro ⟨k, hkn, hle, hkeep, hp⟩
        cases k with
        | zero =>
          left
          simp only [Nat.cast_zero, zero_mul, add_zero] at hkeep hp
          rw [if_pos hkeep, List.mem_singleton]
          exact hp
        | succ j =>
          right
          have e : cur + ((j + 1 : Nat) : Int) * step = cur + step + (j : Int) * step := by
            push_cast
            ring
          rw [e] at hle hkeep hp
          exact (ih (cur + step) p).2 ⟨j, Nat.lt_of_succ_lt_succ hkn, hle, hkeep, hp⟩
    · rw [iterFreeSlotsFuel, if_neg hg]
      simp only [List.not_mem_nil, false_iff, not_exists]
      rintro k ⟨_, hle, _, _⟩
      apply hg
      have hk0 : 0 ≤ (k : Int) * step := mul_nonneg (Int.natCast_nonneg k) (le_of_lt hstep)
      linarith

/-- Helper: for a positive step the fueled loop yields starts in strictly
increasing order. -/
theorem pairwise_iterFreeSlotsFuel (we dur step now : Int) (busy : List (Int × Int))
    (hstep : 0 < step) :
    ∀ (fuel : Nat) (cur : Int),
      (iterFreeSlotsFuel we dur step now busy fuel cur).Pairwise
        (fun p q => p.1 < q.1) := by
  intro fuel
  induction fuel with
  | zero =>
    intro cur
    simp [iterFreeSlotsFuel]
  | succ n ih =>
    intro cur
    by_cases hg : cur + dur ≤ we
    · rw [iterFreeSlotsFuel, if_pos hg]
      by_cases hk : slotKeep cur (cur + dur) now busy = true
      · rw [if_pos hk, List.singleton_append]
        refine List.Pairwise.cons ?_ (ih (cur + step))
        intro q hq
        rcases (mem_iterFreeSlotsFuel we dur step now busy hstep n (cur + step) q).1 hq
          with ⟨k, _, _, _, hp⟩
        have hk0 : 0 ≤ (k : Int) * step := mul_nonneg (Int.natCast_nonneg k) (le_of_lt hstep)
        rw [hp]
        simp only
        linarith
      · rw [if_neg hk, List.nil_append]
        exact ih (cur + step)
    · rw [iterFreeSlotsFuel, if_neg hg]
      exact List.Pairwise.nil

/-- C6: for positive duration and interval, `iter_free_slots` yields exactly
the pairs `(s, s + dur)` with `s = window_start + k * step` for some `k ≥ 0`,
`s + dur ≤ window_end`, `s + dur > now`, and no overlap with any busy interval
(half-open test); the starts are yielded in strictly increasing order. -/
theorem c6_iter_free_slots (ws we dur step : Int) (busy : List (Int × Int)) (now : Int)
    (hdur : 0 < dur) (hstep : 0 < step) :
    (∀ p : Int × Int, p ∈ iter_free_slots ws we dur step busy now ↔
      ((∃ k : Nat, p.1 = ws + k * step) ∧ p.2 = p.1 + dur ∧ p.1 + dur ≤ we ∧
        now < p.1 + dur ∧ ∀ b ∈ busy, overlaps p.1 (p.1 + dur) b.1 b.2 = false)) ∧
    (iter_free_slots ws we dur step busy now).Pairwise (fun p q => p.1 < q.1) := by
  constructor
  · intro p
    rw [iter_free_slots, mem_iterFreeSlotsFuel we dur step now busy hstep]
    constructor
    · rintro ⟨k, _, hle, hkeep, hp⟩
      rcases (slotKeep_eq_true _ _ _ _).1 hkeep with ⟨hnow, hall⟩
      rw [hp]
      exact ⟨⟨k, rfl⟩, rfl, hle, hnow, hall⟩
    · rintro ⟨⟨k, hp1⟩, hp2, hle, hnow, hall⟩
      have hstep1 : (1 : Int) ≤ step := hstep
      have hkk : (k : Int) ≤ (k : Int) * step :=
        le_mul_of_one_le_right (Int.natCast_nonneg k) hstep1
      have hle' : ws + (k : Int) * step + dur ≤ we := by rw [← hp1]; exact hle
      have hfuel : k < iterFuel ws we dur := by
        have hk1 : (k : Int) ≤ we - dur - ws := by linarith
        simp only [iterFuel]
        omega
      refine ⟨k, hfuel, hle', ?_, ?_⟩
      · rw [slotKeep_eq_true]
        rw [← hp1]
        exact ⟨hnow, hall⟩
      · have : p = (p.1, p.2) := rfl
        rw [this, hp1, hp2, hp1]
  · exact pairwise_iterFreeSlotsFuel we dur step now busy hstep _ _

/-- C6 (witness): window 10:00–12:00 with 60-minute slots at a 60-minute
interval; the theorem instantiated there yields the sortedness conjunct, and
the first slot is indeed a member. -/
theorem c6_witness :
    ((600 : Int), (660 : Int)) ∈ iter_free_slots 600 720 60 60 [] 0 ∧
    (iter_free_slots 600 720 60 60 [] 0).Pairwise (fun p q => p.1 < q.1) :=
  ⟨by decide, (c6_iter_free_slots 600 720 60 60 [] 0 (by decide) (by decide)).2⟩

/-- C9: for every schedule config, date, location, session type, busy set and
clock, the list `list_available_slots` returns is sorted ascending by `start`
(every adjacent pair — indeed every pair — satisfies `s_i.start ≤ s_j.start`),
including when slots of several matching rules are concatenated. -/
theorem c9_slots_sorted (cfg : Cfg) (date : PyDate) (location : Option String)
    (session_type : String) (busy : List (Int × Int)) (now_utc : Int) :
    (list_available_slots cfg date location session_type busy now_utc).Pairwise
      (fun a b => a.start ≤ b.start) := by
  unfold list_available_slots
  exact List.sorted_insertionSort _ _

/-! ### Sanity checks mirroring the repository's own unit tests -/

example : pyContains "foo online bar" "online" = true := by decide

example : pyLower "Онлайн" = "онлайн" := by decide

example : pyStrip "  a b  " = "a b" := by decide

example : normalize_session_type (some "") = "offline" := by decide

example : normalize_session_type (some "Онлайн") = "online" := by decide

example : normalize_session_type (some "any") = "any" := by decide

example : normalize_session_type (some "Песочная терапия") = "sand" := by decide

example : normalize_session_type (some "Очно") = "offline" := by decide

example : normalize_session_type (some "rest") = "rest" := by decide

example : normalize_location_rule (some "") = "any" := by decide

example : normalize_location_rule (some "любой") = "any" := by decide

example : normalize_location_rule (some "Онлайн") = "online" := by decide

example : normalize_location_rule (some "IJsbaanpad 9") = "IJsbaanpad 9" := by decide

example : pyToInt "10" = some 10 := by decide

example : pyToInt "-30" = some (-30) := by decide

example : pyToInt " 9 " = some 9 := by decide

example : pyToInt "" = Option.none := by decide

example : pyToInt "oops" = Option.none := by decide

example : pyToInt "0" = some 0 := by decide

example : pySplitColon "10:30" = ["10", "30"] := by decide

example : pySplitColon "" = [""] := by decide

example : pySplitColon "10:30:45" = ["10", "30", "45"] := by decide

example : parse_hhmm "10:30" = some (10, 30) := by decide

example : parse_hhmm "9" = some (9, 0) := by decide

example : parse_hhmm "24:00" = Option.none := by decide

example : parse_hhmm "oops" = Option.none := by decide

example : parse_hhmm "" = Option.none := by decide

example : parse_hhmm "00:00" = some (0, 0) := by decide

example : overlaps 600 660 660 720 = false := by decide

example : overlaps 600 660 600 660 = true := by decide

example : durInterval (PyNum.int 60) (PyNum.int 30) = (60, 30) := by decide

example : durInterval PyNum.pynone PyNum.pynone = (50, 50) := by decide

example : durInterval (PyNum.str "-30") PyNum.pynone = (-30, -30) := by decide

example : durInterval (PyNum.int 60) (PyNum.str "0") = (60, 0) := by decide

example : durInterval (PyNum.str "oops") (PyNum.int 30) = (50, 50) := by decide

example : durInterval (PyNum.int 60) (PyNum.str "oops") = (50, 50) := by decide

example : durInterval (PyNum.int 0) PyNum.pynone = (50, 50) := by decide

example : dmyStr ⟨1, 1, 50, 0⟩ = "01-01-50" := by decide

example :
    match_rule ⟨1, 1, 50, 0⟩
      { date := "01-01-50", start := "10:00", stop := "12:00", duration := PyNum.int 60,
        interval := PyNum.int 60, location := "IJsbaanpad 9", session_type := "Очно" }
      "IJsbaanpad 9" "offline" = some (600, 720, 60, 60, "IJsbaanpad 9") := by decide

example :
    match_rule ⟨1, 1, 50, 0⟩
      { date := "02-01-50", start := "10:00", stop := "12:00", duration := PyNum.int 60,
        interval := PyNum.int 60, location := "", session_type := "" }
      "" "offline" = Option.none := by decide

example :
    match_rule ⟨1, 1, 50, 0⟩
      { date := "01-01-50", start := "10:00", stop := "12:00", duration := PyNum.int 60,
        interval := PyNum.int 60, location := "", session_type := "rest" }
      "" "offline" = Option.none := by decide

example : iter_free_slots 600 720 60 60 [] 0 = [(600, 660), (660, 720)] := by decide

example : iter_free_slots 600 720 60 60 [(600, 660)] 0 = [(660, 720)] := by decide

example : iter_free_slots 600 720 60 60 [] 680 = [(660, 720)] := by decide

example : iter_free_slots 540 600 30 30 [] 0 = [(540, 570), (570, 600)] := by decide

example :
    list_available_slots
      (Cfg.dictCfg [RuleItem.dict
        { date := "01-01-50", start := "10:00", stop := "12:00", duration := PyNum.int 60,
          interval := PyNum.int 60, location := "IJsbaanpad 9", session_type := "Очно" }])
      ⟨1, 1, 50, 0⟩ (some "IJsbaanpad 9") "Очно" [] 0
    = [{ id := "600|IJsbaanpad 9|Очно", start := 600, stop := 660,
         location := some "IJsbaanpad 9", session_type := "Очно" },
       { id := "660|IJsbaanpad 9|Очно", start := 660, stop := 720,
         location := some "IJsbaanpad 9", session_type := "Очно" }] := by decide

example :
    list_available_slots (ScheduleRepository.get_sync
      [{ date := "01-01-50", start := "10:00", stop := "12:00", duration := PyNum.int 60,
         interval := PyNum.int 60, location := "IJsbaanpad 9", session_type := "Очно" }])
      ⟨1, 1, 50, 0⟩ (some "IJsbaanpad 9") "Очно" [] 0 = [] := by decide

end Filmtherapy
